import Mathlib

/-!
Shallow embedding of the ootd-models inference service glue code.

The embedding covers:
* `src/handler.py` — the queue (serverless) handler: `_bool_flags_for_images`,
  `_encode_image_file_to_base64`, `_handle_infer`, `_handle_remove_background`,
  `handler`;
* `src/bg_removal/remover.py` — `remove_background` and its output-path
  derivation (via an embedding of `urlparse`, `os.path.basename`,
  `os.path.splitext`, `os.path.join`);
* `src/main.py` — the HTTP endpoints `infer` and `remove_bg`, with the
  pydantic list-length constraints of `src/models.py`.

External collaborators (the diffusion pipeline, the rembg segmentation model,
the network fetch and the image codec) are parameters of the embedding
(`Env`); file writes and model invocations are recorded as an explicit trace
(`Call`), and a Python exception propagating out of a function is an
`Except.error` carrying the exception's textual message.
-/

namespace OOTD

/-- Scalar Python values as they appear inside a queue job payload. -/
inductive PyScalar where
  | sNone
  | sBool (b : Bool)
  | sInt (n : Int)
  | sStr (s : String)
deriving DecidableEq, Repr

/-- Python truthiness `bool(x)` for scalar values. -/
def PyScalar.truthy : PyScalar → Bool
  | .sNone => false
  | .sBool b => b
  | .sInt n => n != 0
  | .sStr s => s != ""

/-- Python `repr(x)` for scalar values. -/
def PyScalar.pyRepr : PyScalar → String
  | .sNone => "None"
  | .sBool true => "True"
  | .sBool false => "False"
  | .sInt n => toString n
  | .sStr s => "\x27" ++ s ++ "\x27"

/-- Dynamically-typed Python values as they appear in a queue job payload
(lists carry scalar elements, which is all the payloads of this service use). -/
inductive PyVal where
  | vNone
  | vBool (b : Bool)
  | vInt (n : Int)
  | vStr (s : String)
  | vList (xs : List PyScalar)
deriving DecidableEq, Repr

/-- Python truthiness `bool(x)` for the embedded value universe. -/
def PyVal.truthy : PyVal → Bool
  | .vNone => false
  | .vBool b => b
  | .vInt n => n != 0
  | .vStr s => s != ""
  | .vList xs => !xs.isEmpty

/-- Python `repr(x)` for the embedded value universe. -/
def PyVal.pyRepr : PyVal → String
  | .vNone => "None"
  | .vBool true => "True"
  | .vBool false => "False"
  | .vInt n => toString n
  | .vStr s => "\x27" ++ s ++ "\x27"
  | .vList xs => "[" ++ String.intercalate ", " (xs.map PyScalar.pyRepr) ++ "]"

/-- Python `str(x)` for the embedded value universe. -/
def PyVal.toPyStr : PyVal → String
  | .vStr s => s
  | v => v.pyRepr

/-- Embedding of `_bool_flags_for_images` (src/handler.py lines 57-83):
normalize the `remove_background` parameter into per-image bool flags.
`PyVal.vNone` plays the role of Python `None` (parameter absent or null). -/
def _bool_flags_for_images (image_paths : List String) (remove_background_param : PyVal) :
    List Bool :=
  let n := image_paths.length
  match remove_background_param with
  | .vNone => List.replicate n false
  | .vBool b => List.replicate n b
  | .vList xs =>
      (List.range n).map (fun idx =>
        if idx < xs.length then (xs.getD idx .sNone).truthy else false)
  | .vInt _ => List.replicate n false
  | .vStr _ => List.replicate n false

example : _bool_flags_for_images ["a", "b", "c"] (.vList [.sBool true, .sBool false]) =
    [true, false, false] := by decide

example : _bool_flags_for_images ["a", "b"] (.vBool true) = [true, true] := by decide

/-! ### Path and URL string primitives

Embeddings of the CPython library functions the remover's output-path
derivation uses: `posixpath.basename`, `posixpath.splitext`, `posixpath.join`
and the scheme/path fields of `urllib.parse.urlparse`.  Strings are handled
as `List Char` (Python `str`), with `String` wrappers at the interface. -/

/-- Index of the last occurrence of `c` in `cs` (Python `str.rfind`, as an
`Option` instead of `-1`). -/
def lastIdxOf? (c : Char) (cs : List Char) : Option Nat :=
  match cs.reverse.findIdx? (· = c) with
  | some j => some (cs.length - 1 - j)
  | none => none

/-- `posixpath.basename`: everything after the last `/`. -/
def basenameL (cs : List Char) : List Char :=
  match lastIdxOf? '/' cs with
  | some i => cs.drop (i + 1)
  | none => cs

/-- The root part of `posixpath.splitext`: drop the extension after the last
dot, unless every character between the last `/` and that dot is a dot
(hidden-file rule). -/
def splitextRoot (p : List Char) : List Char :=
  let sepIdx : Int := match lastIdxOf? '/' p with | some i => (i : Int) | none => -1
  let dotIdx : Int := match lastIdxOf? '.' p with | some i => (i : Int) | none => -1
  if sepIdx < dotIdx then
    let fi := (sepIdx + 1).toNat
    if ((p.drop fi).take (dotIdx.toNat - fi)).all (fun c => c = '.') then p
    else p.take dotIdx.toNat
  else p

/-- `posixpath.join` for two components. -/
def osPathJoin (a b : List Char) : List Char :=
  if b.head? = some '/' then b
  else if a = [] || a.getLast? = some '/' then a ++ b
  else a ++ '/' :: b

/-- `os.path.join` on `String`s. -/
def joinS (a b : String) : String := String.mk (osPathJoin a.data b.data)

/-- Characters admissible in a URL scheme after the first (CPython
`urllib.parse.scheme_chars`). -/
def isSchemeChar (c : Char) : Bool := c.isAlphanum || c = '+' || c = '-' || c = '.'

/-- The scheme/rest split of CPython `urlsplit`: a leading
`[a-zA-Z][a-zA-Z0-9+.-]*:` is removed and returned lowercased, otherwise the
scheme is empty and the input is unchanged. -/
def splitScheme (cs : List Char) : List Char × List Char :=
  match cs.findIdx? (· = ':') with
  | some i =>
      if 0 < i && (match cs.head? with | some c => c.isAlpha | none => false)
          && (cs.take i).all isSchemeChar then
        ((cs.take i).map Char.toLower, cs.drop (i + 1))
      else ([], cs)
  | none => ([], cs)

/-- `urlparse(s).scheme`. -/
def urlScheme (cs : List Char) : List Char := (splitScheme cs).1

/-- Drop a leading `//netloc` as `urlsplit` does: the netloc extends to the
first `/`, `?` or `#`, which is kept in the remainder. -/
def stripNetloc (cs : List Char) : List Char :=
  if cs.take 2 = ['/', '/'] then
    let rest := cs.drop 2
    match rest.findIdx? (fun c => c = '/' || c = '?' || c = '#') with
    | some i => rest.drop i
    | none => []
  else cs

/-- `urlparse(s).path`: strip scheme and netloc, then truncate at the first
`#` (fragment) and the first `?` (query). -/
def urlPath (cs : List Char) : List Char :=
  ((stripNetloc (splitScheme cs).2).takeWhile (fun c => !(c = '#'))).takeWhile
    (fun c => !(c = '?'))

/-- `parsed.scheme in ("http", "https")` — the remover's URL test. -/
def isHttpUrl (cs : List Char) : Bool :=
  urlScheme cs = "http".data || urlScheme cs = "https".data

/-- The raw basename the remover starts from (src/bg_removal/remover.py
lines 60-66): for URLs, `os.path.basename(parsed.path) or "image"`;
for local paths, `os.path.basename(image_path_or_url)` with no fallback. -/
def rawBaseName (cs : List Char) : List Char :=
  if isHttpUrl cs then
    let b := basenameL (urlPath cs)
    if b.isEmpty then "image".data else b
  else basenameL cs

/-- The `.png`-forcing steps of the derivation (remover.py lines 63-72):
append `.png` when the name has no dot, then replace the extension by `.png`
when the name does not already end in `.png`. -/
def forcePngL (b : List Char) : List Char :=
  let b1 := if b.contains '.' then b else b ++ ".png".data
  if (".png".data).isSuffixOf b1 then b1 else splitextRoot b1 ++ ".png".data

/-- The derived basename for an input reference. -/
def deriveBaseName (cs : List Char) : List Char := forcePngL (rawBaseName cs)

/-- Embedding of the output-path derivation of `remove_background`
(src/bg_removal/remover.py lines 57-74), used when no explicit output path is
given. -/
def derive_output_name (ref : String) (output_dir : String) : String :=
  String.mk (osPathJoin output_dir.data (deriveBaseName ref.data))

example : derive_output_name "person.png" "outputs/bg_removed" =
    "outputs/bg_removed/person.png" := by decide
example : derive_output_name "photo.JPG" "outputs/bg_removed" =
    "outputs/bg_removed/photo.png" := by decide
example : derive_output_name "http://host.com/a/b.jpg?v=2" "outputs/bg_removed" =
    "outputs/bg_removed/b.png" := by decide
example : derive_output_name "http://host.com/" "outputs/bg_removed" =
    "outputs/bg_removed/image.png" := by decide
example : derive_output_name "noext" "outputs/bg_removed" =
    "outputs/bg_removed/noext.png" := by decide
example : derive_output_name "foo/" "outputs/bg_removed" =
    "outputs/bg_removed/.png" := by decide

/-! ### Images, external collaborators, call traces -/

/-- PIL image modes relevant to this service. -/
inductive ImgMode where
  | RGB
  | RGBA
  | L
  | P
deriving DecidableEq, Repr

/-- Decoded pixel data: colour samples with an optional alpha channel. -/
structure Img where
  mode : ImgMode
  rgb : List (Nat × Nat × Nat)
  alpha : Option (List Nat)
deriving DecidableEq, Repr

/-- PIL `img.convert("RGB")`: drop the alpha channel, fix the mode. -/
def convertRGB (img : Img) : Img := ⟨.RGB, img.rgb, none⟩

/-- A base64 payload returned to a caller: either the PNG/base64 encoding of a
concrete image (`_encode_image_file_to_base64`) or the string returned by the
generation pipeline. -/
inductive Payload where
  | pngB64 (img : Img)
  | fromPipeline (s : String)
deriving DecidableEq, Repr

/-- External collaborators: image open/decode (local file or URL fetch, before
any mode conversion), the rembg segmentation model, and the full
`run_inference` call (pipeline load, image loads, generation, PNG/base64
encoding).  An `Except.error` is a Python exception carrying its message. -/
structure Env where
  openRef : String → Except String Img
  rembg : Img → Img
  runInference : String → List String → Int → Int → Rat → Int → Except String Payload

/-- Observable actions of one job: image opens, segmentation-model calls,
file writes, generator invocations. -/
inductive Call where
  | openRef (ref : String)
  | rembg
  | saveFile (path : String) (img : Img)
  | runInference (prompt : String) (paths : List String)
      (height width : Int) (guidance : Rat) (steps : Int)
deriving DecidableEq, Repr

/-- Files written during the job, most recent first. -/
def FS := List (String × Img)

/-- Read a file written earlier in the job. -/
def fsRead (fs : FS) (path : String) : Option Img :=
  match fs with
  | [] => none
  | (p, img) :: rest => if p = path then some img else fsRead rest path

/-! ### `src/bg_removal/remover.py` -/

/-- Embedding of `remove_background` (src/bg_removal/remover.py lines 25-81):
load the reference (URL fetch or local open, then `convert("RGB")`), run the
segmentation model, save to the explicit output path or to the derived one,
and return the output path.  Exceptions (fetch, decode) propagate. -/
def remove_background (env : Env) (fs : FS) (image_path_or_url : String)
    (output_path : Option String) (output_dir : String) :
    FS × List Call × Except String String :=
  match env.openRef image_path_or_url with
  | .error e => (fs, [.openRef image_path_or_url], .error e)
  | .ok raw =>
      let input_image := convertRGB raw
      let output_image := env.rembg input_image
      let path :=
        match output_path with
        | some p => p
        | none => derive_output_name image_path_or_url output_dir
      ((path, output_image) :: fs,
       [.openRef image_path_or_url, .rembg, .saveFile path output_image],
       .ok path)

/-! ### `src/handler.py` — queue job payloads and results -/

/-- One queue job's `input` dictionary.  `none` means the key is absent
(`dict.get` returns Python `None`, which `PyVal.vNone` also represents for
keys present with a null value). -/
structure JobInput where
  task_type : Option PyVal
  prompt : Option String
  image_paths : Option (List String)
  height : Option Int
  width : Option Int
  guidance_scale : Option Rat
  num_inference_steps : Option Int
  remove_background : Option PyVal
  image_path : Option String
deriving DecidableEq, Repr

/-- The empty job input dictionary `{}`. -/
def JobInput.empty : JobInput := ⟨none, none, none, none, none, none, none, none, none⟩

/-- The queue event: `{id, input}`. -/
structure Event where
  id : Option PyVal
  input : Option JobInput
deriving DecidableEq, Repr

/-- The job result dictionary `{success, image_base64, error_message}`. -/
structure JobResult where
  success : Bool
  image_base64 : Option Payload
  error_message : Option String
deriving DecidableEq, Repr

/-- Embedding of `_encode_image_file_to_base64` (src/handler.py lines 86-95):
re-open the file, `convert("RGB")`, encode PNG, base64. -/
def _encode_image_file_to_base64 (fs : FS) (path : String) : Except String Payload :=
  match fsRead fs path with
  | some img => .ok (.pngB64 (convertRGB img))
  | none => .error ("cannot open " ++ path)

/-- The per-image preprocessing loop of `_handle_infer` (src/handler.py lines
124-131): for each (path, flag), when the flag is set remove the background
into `/tmp/bg_removed/<job_id>/img_<idx>.png` and substitute the processed
path, else pass the original path through.  This loop is outside the `try`
block, so a failure aborts with the exception. -/
def processImages (env : Env) (fs : FS) (jid : String) :
    List (String × Bool) → Nat → FS × List Call × Except String (List String)
  | [], _ => (fs, [], .ok [])
  | (path, flag) :: rest, idx =>
      if flag then
        let outp := joinS (joinS (joinS "/tmp" "bg_removed") jid)
          ("img_" ++ toString idx ++ ".png")
        match remove_background env fs path (some outp) "outputs/bg_removed" with
        | (fs1, tr1, .error e) => (fs1, tr1, .error e)
        | (fs1, tr1, .ok p) =>
            match processImages env fs1 jid rest (idx + 1) with
            | (fs2, tr2, r) => (fs2, tr1 ++ tr2, r.map (p :: ·))
      else
        match processImages env fs jid rest (idx + 1) with
        | (fs2, tr2, r) => (fs2, tr2, r.map (path :: ·))

/-- The validation-failure result of `_handle_infer` (src/handler.py lines
103-108). -/
def inferValidationFailure : JobResult :=
  ⟨false, none, some "Both \x27prompt\x27 and \x27image_paths\x27 are required for infer task."⟩

/-- Embedding of `_handle_infer` (src/handler.py lines 98-154).  The final
result is `Except.error e` when a Python exception propagates out of the
function (which happens for failures in the preprocessing loop, raised before
the `try` block); generator failures are caught and returned as a failed
result. -/
def _handle_infer (env : Env) (fs : FS) (job : JobInput) (jid : String) :
    FS × List Call × Except String JobResult :=
  match job.prompt, job.image_paths with
  | some prompt, some image_paths =>
      if prompt = "" || image_paths.isEmpty then (fs, [], .ok inferValidationFailure)
      else
        let height := job.height.getD 1024
        let width := job.width.getD 1024
        let guidance_scale := job.guidance_scale.getD 1
        let num_inference_steps := job.num_inference_steps.getD 10
        let flags := _bool_flags_for_images image_paths (job.remove_background.getD .vNone)
        match processImages env fs jid (image_paths.zip flags) 0 with
        | (fs1, tr1, .error e) => (fs1, tr1, .error e)
        | (fs1, tr1, .ok processed_paths) =>
            let call := Call.runInference prompt processed_paths height width
              guidance_scale num_inference_steps
            match env.runInference prompt processed_paths height width
                guidance_scale num_inference_steps with
            | .ok image_base64 => (fs1, tr1 ++ [call], .ok ⟨true, some image_base64, none⟩)
            | .error e => (fs1, tr1 ++ [call], .ok ⟨false, none, some e⟩)
  | _, _ => (fs, [], .ok inferValidationFailure)

/-- The validation-failure result of `_handle_remove_background`
(src/handler.py lines 160-165). -/
def removeBgValidationFailure : JobResult :=
  ⟨false, none, some "\x27image_path\x27 is required for remove_background task."⟩

/-- Embedding of `_handle_remove_background` (src/handler.py lines 157-184).
Here the whole removal-and-encode sequence sits inside the `try`, so every
failure is converted into a failed result. -/
def _handle_remove_background (env : Env) (fs : FS) (job : JobInput) (jid : String) :
    FS × List Call × Except String JobResult :=
  match job.image_path with
  | none => (fs, [], .ok removeBgValidationFailure)
  | some image_path =>
      if image_path = "" then (fs, [], .ok removeBgValidationFailure)
      else
        let outp := joinS (joinS (joinS "/tmp" "bg_removed") jid) "removed.png"
        match remove_background env fs image_path (some outp) "outputs/bg_removed" with
        | (fs1, tr1, .error e) => (fs1, tr1, .ok ⟨false, none, some e⟩)
        | (fs1, tr1, .ok processed_path) =>
            match _encode_image_file_to_base64 fs1 processed_path with
            | .error e => (fs1, tr1, .ok ⟨false, none, some e⟩)
            | .ok image_base64 => (fs1, tr1, .ok ⟨true, some image_base64, none⟩)

/-- Embedding of `handler` (src/handler.py lines 187-216): dispatch on
`task_type` (default `"infer"`), unknown values yield a failed result. -/
def handler (env : Env) (event : Event) : List Call × Except String JobResult :=
  let jid := (event.id.getD (.vStr "unknown")).toPyStr
  let job := event.input.getD JobInput.empty
  let task_type := job.task_type.getD (.vStr "infer")
  if task_type = .vStr "infer" then
    (_handle_infer env [] job jid).2
  else if task_type = .vStr "remove_background" then
    (_handle_remove_background env [] job jid).2
  else
    ([], .ok ⟨false, none, some ("Unknown task_type: " ++ task_type.toPyStr)⟩)

/-! ### `src/main.py` and `src/models.py` — the HTTP surface -/

/-- `InferenceRequest` (src/models.py lines 10-23), after pydantic has
supplied the defaults. -/
structure InferenceRequest where
  prompt : String
  image_paths : List String
  height : Int
  width : Int
  guidance_scale : Rat
  num_inference_steps : Int
deriving DecidableEq, Repr

/-- The pydantic list-length constraints on `image_paths`
(`min_items=1, max_items=4` in src/models.py). -/
def inferenceRequestValid (r : InferenceRequest) : Bool :=
  1 ≤ r.image_paths.length && r.image_paths.length ≤ 4

/-- `InferenceResponse` (src/models.py lines 26-31). -/
structure InferenceResponse where
  success : Bool
  image_base64 : Option Payload
  error_message : Option String
deriving DecidableEq, Repr

/-- Embedding of the `POST /infer` endpoint body (src/main.py lines 17-35). -/
def infer (env : Env) (req : InferenceRequest) : List Call × InferenceResponse :=
  let call := Call.runInference req.prompt req.image_paths req.height req.width
    req.guidance_scale req.num_inference_steps
  match env.runInference req.prompt req.image_paths req.height req.width
      req.guidance_scale req.num_inference_steps with
  | .ok image_base64 => ([call], ⟨true, some image_base64, none⟩)
  | .error e => ([call], ⟨false, none, some e⟩)

/-- The `POST /infer` surface: FastAPI validates the request body against the
pydantic model of src/models.py before the endpoint runs, rejecting
out-of-range `image_paths` lengths without invoking the endpoint. -/
def http_infer_surface (env : Env) (req : InferenceRequest) :
    Except String (List Call × InferenceResponse) :=
  if inferenceRequestValid req then .ok (infer env req)
  else .error "request validation error: image_paths length out of range"

/-- `BackgroundRemovalRequest` (src/bg_removal/models.py lines 8-12). -/
structure BackgroundRemovalRequest where
  image_path : String
  output_path : Option String
deriving DecidableEq, Repr

/-- `BackgroundRemovalResponse` (src/bg_removal/models.py lines 15-20). -/
structure BackgroundRemovalResponse where
  success : Bool
  output_path : Option String
  error_message : Option String
deriving DecidableEq, Repr

/-- Embedding of the `POST /remove_background` endpoint body (src/main.py
lines 38-52). -/
def remove_bg (env : Env) (fs : FS) (req : BackgroundRemovalRequest) :
    FS × List Call × BackgroundRemovalResponse :=
  match remove_background env fs req.image_path req.output_path "outputs/bg_removed" with
  | (fs1, tr, .ok p) => (fs1, tr, ⟨true, some p, none⟩)
  | (fs1, tr, .error e) => (fs1, tr, ⟨false, none, some e⟩)

/-! ### Concrete fixtures used by witnesses and counterexamples -/

/-- A sample decoded image with an alpha channel. -/
def imgSample : Img := ⟨.RGBA, [(1, 2, 3)], some [7]⟩

/-- An environment where every collaborator succeeds; the segmentation model
returns an RGBA image (rembg adds transparency). -/
def envOk : Env :=
  ⟨fun _ => .ok imgSample,
   fun i => ⟨.RGBA, i.rgb, some [9]⟩,
   fun _ _ _ _ _ _ => .ok (.fromPipeline "b64")⟩

/-- An environment where opening/fetching any image raises. -/
def envFetchFail : Env :=
  ⟨fun _ => .error "fetch failed", id, fun _ _ _ _ _ _ => .ok (.fromPipeline "b64")⟩

/-- An environment where the generation pipeline raises. -/
def envModelFail : Env :=
  ⟨fun _ => .ok imgSample, id, fun _ _ _ _ _ _ => .error "model failed"⟩

/-! ### Claim theorems -/

/-- Pointwise description of the list branch of `_bool_flags_for_images` when
the selector is a list of booleans. -/
theorem flags_vList_bool (n : Nat) (bs : List Bool) :
    ((List.range n).map (fun idx =>
        if idx < (bs.map PyScalar.sBool).length
        then ((bs.map PyScalar.sBool).getD idx .sNone).truthy else false))
      = (List.range n).map (fun i => bs.getD i false) := by
  apply List.map_congr_left
  intro i _
  by_cases h : i < bs.length
  · simp [List.getD_eq_getElem?_getD, List.getElem?_map, List.length_map, h,
      List.getElem?_eq_getElem h, PyScalar.truthy]
  · simp [List.length_map, h, List.getD_eq_getElem?_getD,
      List.getElem?_eq_none (Nat.le_of_not_lt h)]

/-- C1: for every ordered list of N image references and every selector value,
`_bool_flags_for_images` returns exactly N booleans: an absent/null selector
gives all `false`; a single boolean is broadcast; a list gives position `i`
the value `list[i]` when `i` is within the list's length and `false`
otherwise; any other selector shape (here: an int or a string) gives all
`false`.  The function is total by construction. -/
theorem C1_flag_resolver_rules :
    (∀ (paths : List String) (p : PyVal),
        (_bool_flags_for_images paths p).length = paths.length) ∧
    (∀ paths : List String,
        _bool_flags_for_images paths .vNone = List.replicate paths.length false) ∧
    (∀ (paths : List String) (b : Bool),
        _bool_flags_for_images paths (.vBool b) = List.replicate paths.length b) ∧
    (∀ (paths : List String) (bs : List Bool),
        _bool_flags_for_images paths (.vList (bs.map PyScalar.sBool))
          = (List.range paths.length).map (fun i => bs.getD i false)) ∧
    (∀ (paths : List String) (n : Int),
        _bool_flags_for_images paths (.vInt n) = List.replicate paths.length false) ∧
    (∀ (paths : List String) (s : String),
        _bool_flags_for_images paths (.vStr s) = List.replicate paths.length false) := by
  refine ⟨fun paths p => ?_, fun paths => rfl, fun paths b => rfl,
    fun paths bs => ?_, fun paths n => rfl, fun paths s => rfl⟩
  · cases p <;> simp [_bool_flags_for_images]
  · simpa [_bool_flags_for_images] using flags_vList_bool paths.length bs

/-- C9: when the selector is a list, non-boolean elements are accepted and
coerced by Python truthiness — for `i < min(N, len(selector))` the resolved
flag is `bool(selector[i])`; in particular `0` is falsy, `1` is truthy, and a
non-empty string is truthy. -/
theorem C9_list_selector_truthiness (paths : List String) (xs : List PyScalar)
    (i : Nat) (h1 : i < paths.length) (h2 : i < xs.length) :
    (_bool_flags_for_images paths (.vList xs))[i]? = some (xs.get ⟨i, h2⟩).truthy ∧
    PyScalar.truthy (.sInt 0) = false ∧
    PyScalar.truthy (.sInt 1) = true ∧
    (∀ s : String, s ≠ "" → PyScalar.truthy (.sStr s) = true) := by
  refine ⟨?_, rfl, rfl, fun s hs => by simp [PyScalar.truthy, hs]⟩
  simp [_bool_flags_for_images, List.getElem?_map, List.getElem?_range, h1, h2,
    List.getD_eq_getElem?_getD, List.getElem?_eq_getElem h2, List.get_eq_getElem]

/-- Closed witness for C9 at a concrete job: three images, selector
`[0, "x"]` — position 0 resolves falsy, position 1 truthy. -/
theorem C9_list_selector_truthiness_witness :
    ((_bool_flags_for_images ["a", "b", "c"] (.vList [.sInt 0, .sStr "x"]))[1]?
        = some (([PyScalar.sInt 0, .sStr "x"].get ⟨1, by decide⟩).truthy) ∧
      PyScalar.truthy (.sInt 0) = false ∧
      PyScalar.truthy (.sInt 1) = true ∧
      (∀ s : String, s ≠ "" → PyScalar.truthy (.sStr s) = true)) ∧
    _bool_flags_for_images ["a", "b", "c"] (.vList [.sInt 0, .sStr "x"])
      = [false, true, false] := by
  refine ⟨C9_list_selector_truthiness ["a", "b", "c"] [.sInt 0, .sStr "x"] 1
    (by decide) (by decide), by decide⟩

/-- Validation failure of `_handle_infer`: a missing/empty prompt or a
missing/empty image list short-circuits with no call and no state change. -/
theorem handle_infer_validation (env : Env) (fs : FS) (job : JobInput) (jid : String)
    (h : job.prompt = none ∨ job.prompt = some "" ∨
         job.image_paths = none ∨ job.image_paths = some []) :
    _handle_infer env fs job jid = (fs, [], .ok inferValidationFailure) := by
  rcases h with h | h | h | h
  · simp [_handle_infer, h]
  · cases hip : job.image_paths <;> simp [_handle_infer, h, hip]
  · cases hp : job.prompt <;> simp [_handle_infer, h, hp]
  · cases hp : job.prompt <;> simp [_handle_infer, h, hp]

/-- Unfolding of `_handle_infer` past a passing validation: the preprocessing
loop runs first, its failure aborts, and only then is the generator invoked
inside the `try`. -/
theorem handle_infer_after_validation (env : Env) (fs : FS) (job : JobInput)
    (jid p : String) (paths : List String)
    (hp : job.prompt = some p) (hpne : p ≠ "")
    (hi : job.image_paths = some paths) (hine : paths ≠ []) :
    _handle_infer env fs job jid
      = (match processImages env fs jid
            (paths.zip (_bool_flags_for_images paths (job.remove_background.getD .vNone))) 0 with
         | (fs1, tr1, .error e) => (fs1, tr1, .error e)
         | (fs1, tr1, .ok pps) =>
            match env.runInference p pps (job.height.getD 1024) (job.width.getD 1024)
                (job.guidance_scale.getD 1) (job.num_inference_steps.getD 10) with
            | .ok b => (fs1, tr1 ++ [Call.runInference p pps (job.height.getD 1024)
                (job.width.getD 1024) (job.guidance_scale.getD 1)
                (job.num_inference_steps.getD 10)], .ok ⟨true, some b, none⟩)
            | .error e => (fs1, tr1 ++ [Call.runInference p pps (job.height.getD 1024)
                (job.width.getD 1024) (job.guidance_scale.getD 1)
                (job.num_inference_steps.getD 10)], .ok ⟨false, none, some e⟩)) := by
  simp only [_handle_infer, hp, hi]
  rw [if_neg]
  simp [hpne, hine]

/-- C3: a generate-task job with a missing/empty prompt or a missing/empty
image list fails validation: `_handle_infer` returns success=false with a
descriptive message, touches no state and performs no call — the generator,
the background remover and the image loader are never invoked. -/
theorem C3_validation_fail_fast (env : Env) (fs : FS) (job : JobInput) (jid : String)
    (h : job.prompt = none ∨ job.prompt = some "" ∨
         job.image_paths = none ∨ job.image_paths = some []) :
    _handle_infer env fs job jid = (fs, [], .ok inferValidationFailure) ∧
    inferValidationFailure.success = false ∧
    inferValidationFailure.error_message.isSome = true :=
  ⟨handle_infer_validation env fs job jid h, rfl, rfl⟩

/-- Closed witness for C3: the empty job input fails validation with no
calls. -/
theorem C3_validation_fail_fast_witness :
    _handle_infer envOk [] JobInput.empty "unknown" = ([], [], .ok inferValidationFailure) ∧
    inferValidationFailure.success = false ∧
    inferValidationFailure.error_message.isSome = true :=
  C3_validation_fail_fast envOk [] JobInput.empty "unknown" (Or.inl rfl)

/-- C8: a queue event that omits `task_type` is handled identically to the
same event with `task_type` explicitly set to `"infer"`; this also holds when
the whole `input` dictionary is absent. -/
theorem C8_default_task_type :
    (∀ (env : Env) (i : Option PyVal) (pr : Option String) (ips : Option (List String))
        (ht hw : Option Int) (g : Option Rat) (st : Option Int) (rb : Option PyVal)
        (ip : Option String),
      handler env ⟨i, some ⟨none, pr, ips, ht, hw, g, st, rb, ip⟩⟩
        = handler env ⟨i, some ⟨some (.vStr "infer"), pr, ips, ht, hw, g, st, rb, ip⟩⟩) ∧
    (∀ (env : Env) (i : Option PyVal),
      handler env ⟨i, none⟩
        = handler env ⟨i, some ⟨some (.vStr "infer"), none, none, none, none, none,
            none, none, none⟩⟩) :=
  ⟨fun _ _ _ _ _ _ _ _ _ _ => rfl, fun _ _ => rfl⟩

/-- C5: a queue job whose `task_type` is present but neither `"infer"` nor
`"remove_background"` yields a returned (not thrown) failure whose message
contains the offending value. -/
theorem C5_unknown_task_type (env : Env) (event : Event) (job : JobInput) (v : PyVal)
    (hin : event.input = some job) (ht : job.task_type = some v)
    (h1 : v ≠ .vStr "infer") (h2 : v ≠ .vStr "remove_background") :
    handler env event
      = ([], .ok ⟨false, none, some ("Unknown task_type: " ++ v.toPyStr)⟩) ∧
    ∃ pre post, "Unknown task_type: " ++ v.toPyStr = pre ++ v.toPyStr ++ post := by
  refine ⟨?_, "Unknown task_type: ", "", by simp⟩
  simp [handler, hin, ht, h1, h2]

/-- Closed witness for C5 at `task_type = "bogus"`. -/
theorem C5_unknown_task_type_witness :
    handler envOk ⟨none, some ⟨some (.vStr "bogus"), none, none, none, none, none,
        none, none, none⟩⟩
      = ([], .ok ⟨false, none, some ("Unknown task_type: " ++ (PyVal.vStr "bogus").toPyStr)⟩) ∧
    ∃ pre post, "Unknown task_type: " ++ (PyVal.vStr "bogus").toPyStr
      = pre ++ (PyVal.vStr "bogus").toPyStr ++ post :=
  C5_unknown_task_type envOk _ _ (.vStr "bogus") rfl rfl (by decide) (by decide)

/-- The terminal-result invariant of C4: the success flag governs which of
the payload and the error message is populated. -/
def resultShapeOk {α : Type} (success : Bool) (payload : Option α)
    (err : Option String) : Prop :=
  (success = true → payload.isSome = true ∧ err = none) ∧
  (success = false → payload = none ∧ err.isSome = true)

/-- Every `.ok` result of `_handle_infer` satisfies the C4 invariant. -/
theorem handle_infer_shape (env : Env) (fs : FS) (job : JobInput) (jid : String)
    (r : JobResult) (h : (_handle_infer env fs job jid).2.2 = .ok r) :
    resultShapeOk r.success r.image_base64 r.error_message := by
  unfold _handle_infer at h
  split at h
  · split at h
    · simp at h
      simp [← h, resultShapeOk, inferValidationFailure]
    · dsimp only at h
      split at h
      · simp at h
      · split at h <;>
        · simp at h
          simp [← h, resultShapeOk]
  · simp at h
    simp [← h, resultShapeOk, inferValidationFailure]

/-- Every `.ok` result of `_handle_remove_background` satisfies the C4
invariant. -/
theorem handle_remove_background_shape (env : Env) (fs : FS) (job : JobInput)
    (jid : String) (r : JobResult)
    (h : (_handle_remove_background env fs job jid).2.2 = .ok r) :
    resultShapeOk r.success r.image_base64 r.error_message := by
  unfold _handle_remove_background at h
  split at h
  · simp at h
    simp [← h, resultShapeOk, removeBgValidationFailure]
  · split at h
    · simp at h
      simp [← h, resultShapeOk, removeBgValidationFailure]
    · dsimp only at h
      split at h
      · simp at h
        simp [← h, resultShapeOk]
      · split at h <;>
        · simp at h
          simp [← h, resultShapeOk]

/-- C4: on every terminal result of the queue handler and of both HTTP
endpoints, exactly one of (payload, error message) is populated, governed by
the success flag. -/
theorem C4_exactly_one_of_payload_error :
    (∀ (env : Env) (event : Event) (r : JobResult),
        (handler env event).2 = .ok r →
        resultShapeOk r.success r.image_base64 r.error_message) ∧
    (∀ (env : Env) (req : InferenceRequest),
        resultShapeOk (infer env req).2.success (infer env req).2.image_base64
          (infer env req).2.error_message) ∧
    (∀ (env : Env) (fs : FS) (req : BackgroundRemovalRequest),
        resultShapeOk (remove_bg env fs req).2.2.success
          (remove_bg env fs req).2.2.output_path
          (remove_bg env fs req).2.2.error_message) := by
  refine ⟨fun env event r h => ?_, fun env req => ?_, fun env fs req => ?_⟩
  · unfold handler at h
    dsimp only at h
    split at h
    · exact handle_infer_shape env [] _ _ r h
    · split at h
      · exact handle_remove_background_shape env [] _ _ r h
      · simp at h
        simp [← h, resultShapeOk]
  · unfold infer
    split <;> simp [resultShapeOk]
  · unfold remove_bg
    split <;> simp [resultShapeOk]

/-- Closed witness for C4: the failed unknown-task result of a concrete queue
job has a null payload and a populated error message. -/
theorem C4_exactly_one_of_payload_error_witness :
    resultShapeOk (JobResult.success ⟨false, none, some "Unknown task_type: bogus"⟩)
      (JobResult.image_base64 ⟨false, none, some "Unknown task_type: bogus"⟩)
      (JobResult.error_message ⟨false, none, some "Unknown task_type: bogus"⟩) :=
  C4_exactly_one_of_payload_error.1 envOk
    ⟨none, some ⟨some (.vStr "bogus"), none, none, none, none, none, none, none, none⟩⟩
    ⟨false, none, some "Unknown task_type: bogus"⟩ rfl

/-- A validated generate job whose single image has the removal flag set,
under an environment whose image fetch raises. -/
def evC2 : Event :=
  ⟨some (.vStr "job1"),
   some ⟨none, some "p", some ["a.png"], none, none, none, none, some (.vBool true), none⟩⟩

/-- C2 counterexample: this generate job passes the missing-prompt /
missing-images validation, yet the image-fetch error raised while removing
the background of image 0 propagates out of the handler as an exception
(`Except.error`) instead of being returned as a success=false result — the
per-image preprocessing loop of `_handle_infer` sits outside the `try`
block. -/
theorem C2_counterexample :
    handler envFetchFail evC2 = ([.openRef "a.png"], .error "fetch failed") ∧
    (evC2.input.getD JobInput.empty).prompt = some "p" ∧
    (evC2.input.getD JobInput.empty).image_paths = some ["a.png"] ∧
    (∀ r : JobResult, handler envFetchFail evC2 ≠ ([.openRef "a.png"], .ok r)) := by
  refine ⟨rfl, rfl, rfl, fun r hr => ?_⟩
  rw [show handler envFetchFail evC2 = ([.openRef "a.png"], .error "fetch failed") from rfl]
    at hr
  simp at hr

/-- C2 amended: for a generate job that passes validation, failures raised by
the generator invocation are caught and returned as a success=false result
carrying the exception's message; but a failure raised in the per-image
background-removal loop (image fetch or removal) is NOT caught — it
propagates out of `_handle_infer` as an exception. -/
theorem C2_amended_boundary (env : Env) (fs : FS) (job : JobInput) (jid : String)
    (p : String) (paths : List String)
    (hp : job.prompt = some p) (hpne : p ≠ "")
    (hi : job.image_paths = some paths) (hine : paths ≠ []) :
    (∀ (fs1 : FS) (tr1 : List Call) (e : String),
        processImages env fs jid
            (paths.zip (_bool_flags_for_images paths (job.remove_background.getD .vNone))) 0
          = (fs1, tr1, .error e) →
        _handle_infer env fs job jid = (fs1, tr1, .error e)) ∧
    (∀ (fs1 : FS) (tr1 : List Call) (pps : List String) (e : String),
        processImages env fs jid
            (paths.zip (_bool_flags_for_images paths (job.remove_background.getD .vNone))) 0
          = (fs1, tr1, .ok pps) →
        env.runInference p pps (job.height.getD 1024) (job.width.getD 1024)
            (job.guidance_scale.getD 1) (job.num_inference_steps.getD 10) = .error e →
        _handle_infer env fs job jid
          = (fs1, tr1 ++ [Call.runInference p pps (job.height.getD 1024) (job.width.getD 1024)
              (job.guidance_scale.getD 1) (job.num_inference_steps.getD 10)],
             .ok ⟨false, none, some e⟩)) := by
  constructor
  · intro fs1 tr1 e hproc
    simp only [_handle_infer, hp, hi]
    rw [if_neg]
    · rw [hproc]
    · simp [hpne, hine]
  · intro fs1 tr1 pps e hproc hrun
    simp only [_handle_infer, hp, hi]
    rw [if_neg]
    · rw [hproc]
      dsimp only
      rw [hrun]
    · simp [hpne, hine]

/-- Closed witness for the amended C2: a concrete validated job with no
removal flags, whose generator invocation fails — the failure is caught and
returned as a success=false result with the model's message. -/
theorem C2_amended_boundary_witness :
    _handle_infer envModelFail []
        ⟨none, some "p", some ["a"], none, none, none, none, none, none⟩ "unknown"
      = ([], [Call.runInference "p" ["a"] 1024 1024 1 10],
         .ok ⟨false, none, some "model failed"⟩) := by
  have h := (C2_amended_boundary envModelFail []
    ⟨none, some "p", some ["a"], none, none, none, none, none, none⟩ "unknown"
    "p" ["a"] rfl (by decide) rfl (by decide)).2 [] [] ["a"] "model failed" rfl rfl
  simpa using h

/-- When every removal flag is false, the preprocessing loop performs no
call, writes nothing, and passes all paths through unchanged. -/
theorem processImages_no_flags (env : Env) (fs : FS) (jid : String) :
    ∀ (paths : List String) (idx : Nat),
      processImages env fs jid (paths.zip (List.replicate paths.length false)) idx
        = (fs, [], .ok paths)
  | [], _ => rfl
  | p :: rest, idx => by
      show processImages env fs jid ((p, false) :: rest.zip (List.replicate rest.length false))
          idx = (fs, [], .ok (p :: rest))
      rw [processImages, processImages_no_flags env fs jid rest (idx + 1)]
      rfl

/-- A queue generate job with five image references, all collaborators
succeeding. -/
def ev5 : Event :=
  ⟨none, some ⟨none, some "p", some ["a", "b", "c", "d", "e"], none, none, none,
    none, none, none⟩⟩

/-- C7 counterexample: the queue surface does not enforce the 1-4 bound — a
generate job with five image references is accepted, the generator is
invoked with all five, and the job succeeds, where the claim requires a
failed result before any model invocation. -/
theorem C7_counterexample :
    handler envOk ev5
      = ([Call.runInference "p" ["a", "b", "c", "d", "e"] 1024 1024 1 10],
         .ok ⟨true, some (.fromPipeline "b64"), none⟩) ∧
    ((ev5.input.getD JobInput.empty).image_paths.getD []).length = 5 :=
  ⟨rfl, rfl⟩

/-- C7 amended: the 1-4 bound on the image list is enforced only on the HTTP
surface, by the pydantic constraints of `InferenceRequest`; the queue surface
rejects only an empty (or missing) list, and a job with more than 4 entries
is passed to the generator unchanged. -/
theorem C7_amended_bounds :
    (∀ (env : Env) (req : InferenceRequest),
        req.image_paths.length = 0 ∨ 4 < req.image_paths.length →
        http_infer_surface env req
          = .error "request validation error: image_paths length out of range") ∧
    (∀ (env : Env) (fs : FS) (job : JobInput) (jid : String),
        job.image_paths = some [] →
        _handle_infer env fs job jid = (fs, [], .ok inferValidationFailure)) ∧
    (∀ (env : Env) (fs : FS) (jid prompt : String) (paths : List String) (b : Payload),
        prompt ≠ "" → paths ≠ [] →
        env.runInference prompt paths 1024 1024 1 10 = .ok b →
        _handle_infer env fs ⟨none, some prompt, some paths, none, none, none, none,
            none, none⟩ jid
          = (fs, [Call.runInference prompt paths 1024 1024 1 10],
             .ok ⟨true, some b, none⟩)) := by
  refine ⟨fun env req h => ?_, fun env fs job jid h => ?_, fun env fs jid prompt paths b hp hne hrun => ?_⟩
  · rcases h with h | h
    · simp [http_infer_surface, inferenceRequestValid, h]
    · simp [http_infer_surface, inferenceRequestValid, Nat.not_le_of_lt h,
        Nat.le_of_lt h]
  · exact handle_infer_validation env fs job jid (by simp [h])
  · rw [handle_infer_after_validation env fs
      ⟨none, some prompt, some paths, none, none, none, none, none, none⟩ jid prompt paths
      rfl hp rfl hne]
    simp only [Option.getD_none]
    rw [show _bool_flags_for_images paths PyVal.vNone
        = List.replicate paths.length false from rfl]
    rw [processImages_no_flags env fs jid paths 0]
    dsimp only
    rw [hrun]
    simp

/-- Closed witness for the amended C7: the HTTP surface rejects a 5-image
request, the queue surface rejects an empty list, and the queue surface
accepts a 5-image job and invokes the generator. -/
theorem C7_amended_bounds_witness :
    http_infer_surface envOk ⟨"p", ["a", "b", "c", "d", "e"], 1024, 1024, 1, 10⟩
      = .error "request validation error: image_paths length out of range" ∧
    _handle_infer envOk [] ⟨none, some "p", some [], none, none, none, none, none, none⟩
        "unknown"
      = ([], [], .ok inferValidationFailure) ∧
    _handle_infer envOk [] ⟨none, some "p", some ["a", "b", "c", "d", "e"], none, none,
        none, none, none, none⟩ "unknown"
      = ([], [Call.runInference "p" ["a", "b", "c", "d", "e"] 1024 1024 1 10],
         .ok ⟨true, some (.fromPipeline "b64"), none⟩) :=
  ⟨C7_amended_bounds.1 envOk ⟨"p", ["a", "b", "c", "d", "e"], 1024, 1024, 1, 10⟩
      (Or.inr (by decide)),
   C7_amended_bounds.2.1 envOk [] _ "unknown" rfl,
   C7_amended_bounds.2.2 envOk [] "unknown" "p" ["a", "b", "c", "d", "e"]
      (.fromPipeline "b64") (by decide) (by decide) rfl⟩

/-- Derivation rule as the claim states it: take the reference's basename,
substitute "image" whenever the basename is empty (for URLs and local paths
alike), force a `.png` extension, join under the output directory. -/
def claimed_derive_output_name (ref : String) (output_dir : String) : String :=
  let b := basenameL (if isHttpUrl ref.data then urlPath ref.data else ref.data)
  let b := if b.isEmpty then "image".data else b
  String.mk (osPathJoin output_dir.data (forcePngL b))

/-- C6 counterexample: for the local reference `"foo/"` the basename is empty,
but the code substitutes "image" only in the URL branch — the derived filename
is `".png"`, not the `"image.png"` the claim requires. -/
theorem C6_counterexample :
    derive_output_name "foo/" "outputs/bg_removed" = "outputs/bg_removed/.png" ∧
    claimed_derive_output_name "foo/" "outputs/bg_removed"
      = "outputs/bg_removed/image.png" ∧
    derive_output_name "foo/" "outputs/bg_removed"
      ≠ claimed_derive_output_name "foo/" "outputs/bg_removed" :=
  ⟨rfl, rfl, by decide⟩

/-- A list is always a suffix of anything it is appended to. -/
theorem isSuffixOf_append_self (l t : List Char) : l.isSuffixOf (t ++ l) = true := by
  simp [List.isSuffixOf, List.reverse_append]

/-- The final extension-replacing conditional always yields a `.png` name. -/
theorem png_suffix_aux (b1 : List Char) :
    (".png".data).isSuffixOf
      (if (".png".data).isSuffixOf b1 then b1 else splitextRoot b1 ++ ".png".data)
      = true := by
  by_cases h : (".png".data).isSuffixOf b1 = true
  · simp [h]
  · simp [h, isSuffixOf_append_self]

/-- The `.png`-forcing step always yields a name ending in `.png`. -/
theorem forcePngL_png_suffix (b : List Char) :
    (".png".data).isSuffixOf (forcePngL b) = true :=
  png_suffix_aux (if b.contains '.' then b else b ++ ".png".data)

/-- C6 amended: the derivation is the pure function `derive_output_name` of
the input reference alone (hence deterministic); the result is the forced
`.png` basename joined under the output directory; the " image" substitution
for an empty basename applies only to URL references — a local reference with
an empty basename derives the bare name `".png"`. -/
theorem C6_amended_derivation (ref output_dir : String) :
    derive_output_name ref output_dir
      = String.mk (osPathJoin output_dir.data (deriveBaseName ref.data)) ∧
    (".png".data).isSuffixOf (deriveBaseName ref.data) = true ∧
    (isHttpUrl ref.data = true → basenameL (urlPath ref.data) = [] →
      deriveBaseName ref.data = "image.png".data) ∧
    (isHttpUrl ref.data = false → basenameL ref.data = [] →
      deriveBaseName ref.data = ".png".data) := by
  refine ⟨rfl, forcePngL_png_suffix _, fun hu hb => ?_, fun hu hb => ?_⟩
  · have h1 : rawBaseName ref.data = "image".data := by simp [rawBaseName, hu, hb]
    rw [show deriveBaseName ref.data = forcePngL (rawBaseName ref.data) from rfl, h1]
    decide
  · have h1 : rawBaseName ref.data = [] := by simp [rawBaseName, hu, hb]
    rw [show deriveBaseName ref.data = forcePngL (rawBaseName ref.data) from rfl, h1]
    decide

/-- Closed witness for the amended C6: the URL `"http://h/"` (empty URL
basename) derives `"image.png"`, while the local reference `"foo/"` (empty
local basename) derives `".png"`; both land under the output directory with a
forced `.png` extension. -/
theorem C6_amended_derivation_witness :
    derive_output_name "http://h/" "outputs/bg_removed"
      = String.mk (osPathJoin "outputs/bg_removed".data (deriveBaseName "http://h/".data)) ∧
    deriveBaseName "http://h/".data = "image.png".data ∧
    deriveBaseName "foo/".data = ".png".data ∧
    (".png".data).isSuffixOf (deriveBaseName "foo/".data) = true :=
  ⟨(C6_amended_derivation "http://h/" "outputs/bg_removed").1,
   (C6_amended_derivation "http://h/" "outputs/bg_removed").2.2.1 (by decide) (by decide),
   (C6_amended_derivation "foo/" "outputs/bg_removed").2.2.2 (by decide) (by decide),
   (C6_amended_derivation "foo/" "outputs/bg_removed").2.1⟩

/-- C10: a successful queue remove_background task saves the segmentation
model's output unchanged (alpha channel and all) at the job's output path, but
the base64 payload returned to the caller is the PNG encoding of that file
re-opened and converted to 3-channel RGB — the payload image carries no alpha
channel. -/
theorem C10_rgb_payload (env : Env) (i : Option PyVal) (job : JobInput)
    (p : String) (raw : Img)
    (ht : job.task_type = some (.vStr "remove_background"))
    (hp : job.image_path = some p) (hpne : p ≠ "")
    (ho : env.openRef p = .ok raw) :
    handler env ⟨i, some job⟩
      = ([.openRef p, .rembg,
          .saveFile
            (joinS (joinS (joinS "/tmp" "bg_removed") (i.getD (.vStr "unknown")).toPyStr)
              "removed.png")
            (env.rembg (convertRGB raw))],
         .ok ⟨true, some (.pngB64 (convertRGB (env.rembg (convertRGB raw)))), none⟩) ∧
    (convertRGB (env.rembg (convertRGB raw))).alpha = none := by
  refine ⟨?_, rfl⟩
  simp only [handler, ht, Option.getD_some]
  rw [if_neg (by decide), if_pos (by decide)]
  simp only [_handle_remove_background, hp]
  rw [if_neg hpne]
  simp only [remove_background, ho]
  simp [_encode_image_file_to_base64, fsRead]

/-- Closed witness for C10 at a concrete job: the saved file keeps its alpha
channel while the returned payload image has none. -/
theorem C10_rgb_payload_witness :
    (handler envOk ⟨some (.vStr "j2"), some ⟨some (.vStr "remove_background"), none, none,
          none, none, none, none, none, some "x.jpg"⟩⟩
      = ([.openRef "x.jpg", .rembg,
          .saveFile
            (joinS (joinS (joinS "/tmp" "bg_removed")
                ((some (PyVal.vStr "j2")).getD (.vStr "unknown")).toPyStr)
              "removed.png")
            (envOk.rembg (convertRGB imgSample))],
         .ok ⟨true, some (.pngB64 (convertRGB (envOk.rembg (convertRGB imgSample)))),
           none⟩) ∧
      (convertRGB (envOk.rembg (convertRGB imgSample))).alpha = none) ∧
    (envOk.rembg (convertRGB imgSample)).alpha = some [9] :=
  ⟨C10_rgb_payload envOk (some (.vStr "j2"))
      ⟨some (.vStr "remove_background"), none, none, none, none, none, none, none,
        some "x.jpg"⟩
      "x.jpg" imgSample rfl rfl (by decide) rfl,
   rfl⟩

end OOTD
